import Mathlib

/-!
Verification of the tabutils library (src/tabutils/io.py and
src/tabutils/typetools.py) against its natural-language specification.
Python functions are shallowly embedded as Lean definitions; fallible code
returns Except, generators become lists, and Python runtime errors are an
explicit error type.  Helper modules of the repository that are imported by
the two source files but are not present under src (fntools, convert,
process) are modelled from the specification and marked as such in their
doc comments.
-/

/-- Python runtime errors relevant to the embedded code paths. -/
inductive PyError where
  | keyError (key : String)
  | typeError (msg : String)
  | valueError (msg : String)
  | attributeError (msg : String)
  | unicodeDecodeError
  deriving DecidableEq, Repr

/-- The message carried by an error, as read by `err.message` in Python. -/
def PyError.message : PyError → String
  | .keyError k => k
  | .typeError m => m
  | .valueError m => m
  | .attributeError m => m
  | .unicodeDecodeError => "invalid byte"

/-- A Python `KeyError` is the not-found failure of a dictionary lookup;
it realises the NotFound error kind of the specification. -/
def PyError.isNotFound : PyError → Bool
  | .keyError _ => true
  | _ => false

/-- True when an `Except` holds a success value. -/
def exceptOk : Except PyError α → Bool
  | .ok _ => true
  | .error _ => false

/-- Whether a list of characters is a leading segment of another. -/
def isPrefB : List Char → List Char → Bool
  | [], _ => true
  | _ :: _, [] => false
  | a :: as, b :: bs => a == b && isPrefB as bs

/-- Whether the first list of characters occurs contiguously in the second. -/
def substrB : List Char → List Char → Bool
  | n, [] => n.isEmpty
  | n, c :: t => isPrefB n (c :: t) || substrB n t

/-- Membership test of Python `needle in hay` on strings. -/
def pyIn (needle hay : String) : Bool :=
  substrB needle.data hay.data

/-- Modelled from the spec: `fntools.find(targets, candidates, method)` with
`method = "fuzzy"` tests whether any candidate matches any target, where a
fuzzy match means the target occurs as a substring of the candidate. -/
def find (targets candidates : List String) : Bool :=
  targets.any (fun t => candidates.any (fun c => pyIn t c))

/-- Modelled from the spec: `fntools.byte(iterable)` assembles an iterable of
byte pieces into one contiguous byte sequence. -/
def byte (l : List (List Nat)) : List Nat :=
  l.flatten

/-- Fuel-driven splitting into pieces of `k + 1` elements each. -/
def chunkGo (k : Nat) : Nat → List α → List (List α)
  | _, [] => []
  | 0, l => [l]
  | n + 1, x :: xs => (x :: xs.take k) :: chunkGo k n (xs.drop k)

/-- Modelled from the spec: `fntools.chunk(content, chunksize)` yields pieces
of at most `chunksize` elements; when `chunksize` is unset or zero the whole
content is one piece.  `0` stands for the unset/zero case. -/
def chunk (l : List α) (n : Nat) : List (List α) :=
  match n with
  | 0 => [l]
  | k + 1 => chunkGo k l.length l

/-- Replaces every occurrence of a pattern in a character list, scanning left
to right and resuming after each replacement; the fuel bounds the scan. -/
def replChars (pat rep : List Char) : Nat → List Char → List Char
  | _, [] => []
  | 0, s => s
  | n + 1, c :: t =>
    if !pat.isEmpty && isPrefB pat (c :: t) then
      rep ++ replChars pat rep n ((c :: t).drop pat.length)
    else c :: replChars pat rep n t

/-- Python `str.replace(pattern, replacement)` (all occurrences); an empty
pattern leaves the string unchanged, as in the source's use. -/
def pyReplace (s pattern replacement : String) : String :=
  if pattern.isEmpty then s
  else String.mk (replChars pattern.data replacement.data s.data.length s.data)

/-- Modelled from the spec: `fntools.mreplace(text, replacements)` applies an
ordered list of (find, replace) substitutions sequentially, left to right. -/
def mreplace (text : String) (replacements : List (String × String)) : String :=
  replacements.foldl (fun s fr => pyReplace s fr.1 fr.2) text

/-- Python `str.strip(chars)`: removes characters of the set from both ends. -/
def pyStrip (chars : List Char) (s : String) : String :=
  String.mk (((s.data.dropWhile (fun c => chars.contains c)).reverse.dropWhile
    (fun c => chars.contains c)).reverse)

/-- The fixed extension-to-reader-name table of `io.get_reader`. -/
def switch : List (String × String) :=
  [("csv", "read_csv"), ("xls", "read_xls"), ("xlsx", "read_xls"),
   ("mdb", "read_mdb"), ("json", "read_json"), ("geojson", "read_geojson"),
   ("geojson.json", "read_geojson"), ("sqlite", "read_sqlite"),
   ("dbf", "read_dbf"), ("tsv", "read_tsv")]

/-- Lookup of `switch[extension]`. -/
def lookupSwitch (ext : String) : Option String :=
  (switch.find? (fun kv => kv.1 == ext)).map (fun kv => kv.2)

/-- Embeds `io.get_reader`: returns the reader (by its function name, as
resolved via `getattr`) for an extension.  A missing key makes the dictionary
indexing raise `KeyError`; the `except IndexError` handler of the source can
never fire, so the `KeyError` propagates. -/
def get_reader (ext : String) : Except PyError String :=
  match lookupSwitch ext with
  | some name => .ok name
  | none => .error (.keyError ext)

/-- Python scalar values as classified by the type-guessing component.
`vlist` stands for a container value (a non-empty list of the given length)
that exposes none of the probed attributes. -/
inductive Value where
  | vnone
  | vbool (b : Bool)
  | vint (n : Int)
  | vfloat (q : ℚ)
  | vstr (s : String)
  | vdate (y m d : Nat)
  | vtime (hh mm ss : Nat)
  | vdatetime (y m d hh mm ss : Nat)
  | vlist (len : Nat)
  deriving DecidableEq, Repr

/-- The sentinel year of `typetools`, `NULL_YEAR = 9999`. -/
def NULL_YEAR : Nat := 9999

/-- The sentinel time-of-day of `typetools`, `NULL_TIME = "00:00:00"`,
modelled as the midnight triple whose ISO rendering that string is. -/
def NULL_TIME : Nat × Nat × Nat := (0, 0, 0)

/-- Python truthiness of a value (Python 2: `time(0, 0)` is falsy). -/
def pyTruthy : Value → Bool
  | .vnone => false
  | .vbool b => b
  | .vint n => n != 0
  | .vfloat q => q != 0
  | .vstr s => !s.isEmpty
  | .vdate _ _ _ => true
  | .vtime hh mm ss => (hh, mm, ss) != (0, 0, 0)
  | .vdatetime _ _ _ _ _ _ => true
  | .vlist len => len != 0

/-- Python `hasattr(value, "timetuple")`: date and datetime objects expose it. -/
def hasTimetuple : Value → Bool
  | .vdate _ _ _ => true
  | .vdatetime _ _ _ _ _ _ => true
  | _ => false

/-- Python `hasattr(value, "lower")`: only text values expose a casing method. -/
def hasLower : Value → Bool
  | .vstr _ => true
  | _ => false

/-- The time-of-day components exposed by `isoformat()` of a time value. -/
def isoTime : Value → Option (Nat × Nat × Nat)
  | .vtime hh mm ss => some (hh, mm, ss)
  | .vdatetime _ _ _ hh mm ss => some (hh, mm, ss)
  | _ => none

/-- Python 2 `str(type(value))` for the modelled values. -/
def pyTypeStr : Value → String
  | .vnone => "<type \x27NoneType\x27>"
  | .vbool _ => "<type \x27bool\x27>"
  | .vint _ => "<type \x27int\x27>"
  | .vfloat _ => "<type \x27float\x27>"
  | .vstr _ => "<type \x27unicode\x27>"
  | .vdate _ _ _ => "<type \x27datetime.date\x27>"
  | .vtime _ _ _ => "<type \x27datetime.time\x27>"
  | .vdatetime _ _ _ _ _ _ => "<type \x27datetime.datetime\x27>"
  | .vlist _ => "<type \x27list\x27>"

/-- The canonical datetime representation produced by the converter. -/
structure PyDateTime where
  y : Nat
  m : Nat
  d : Nat
  hh : Nat
  mm : Nat
  ss : Nat
  deriving DecidableEq, Repr

/-- Modelled from the spec: `convert.to_datetime(content)` normalizes a
date-only, time-only, or combined datetime value into one canonical datetime,
filling a missing time with midnight and a missing date with the sentinel
year; it fails with an InvalidInput error (a `TypeError`) when the content
cannot structurally represent any date/time information (a plain number,
boolean, absent value, container, or - in this model, which abstracts away
string parsing - a string). -/
def to_datetime : Value → Except PyError PyDateTime
  | .vdatetime y m d hh mm ss => .ok ⟨y, m, d, hh, mm, ss⟩
  | .vdate y m d => .ok ⟨y, m, d, 0, 0, 0⟩
  | .vtime hh mm ss => .ok ⟨NULL_YEAR, 1, 1, hh, mm, ss⟩
  | _ => .error (.typeError "could not parse content as a datetime")

/-- Embeds `typetools.is_date`: convert, then report whether the extracted
year differs from the sentinel `NULL_YEAR`; when conversion fails the raw
content is probed instead (its own year if it is date-shaped, the sentinel
otherwise), and a falsy content short-circuits to false. -/
def is_date (content : Value) : Except PyError Bool :=
  match to_datetime content with
  | .ok c => .ok (decide (c.y ≠ NULL_YEAR))
  | .error _ =>
    let the_year := if hasTimetuple content then
        (match content with
         | .vdate y _ _ => y
         | .vdatetime y _ _ _ _ _ => y
         | _ => NULL_YEAR)
      else NULL_YEAR
    .ok (pyTruthy content && decide (the_year ≠ NULL_YEAR))

/-- Embeds `typetools.is_time`: convert, then report whether the extracted
time-of-day differs from the sentinel `NULL_TIME`; when conversion fails,
a date-shaped content is deemed to carry the sentinel time, a time-shaped
content uses its own ISO time, and any other content makes the
`converted.isoformat()` access inside the handler raise `AttributeError`. -/
def is_time (content : Value) : Except PyError Bool :=
  match to_datetime content with
  | .ok c => .ok (decide ((c.hh, c.mm, c.ss) ≠ NULL_TIME))
  | .error _ =>
    if hasTimetuple content then
      .ok (pyTruthy content && decide (NULL_TIME ≠ NULL_TIME))
    else
      match isoTime content with
      | some t => .ok (pyTruthy content && decide (t ≠ NULL_TIME))
      | none => .error (.attributeError "isoformat")

/-- Embeds `typetools.is_datetime`: true when both a non-sentinel date and a
non-sentinel time are present; every attribute failure is caught internally
and replaced by the corresponding sentinel. -/
def is_datetime (content : Value) : Except PyError Bool :=
  match to_datetime content with
  | .ok c =>
    .ok (decide (c.y ≠ NULL_YEAR) && decide ((c.hh, c.mm, c.ss) ≠ NULL_TIME))
  | .error _ =>
    let the_year := NULL_YEAR
    let the_time := NULL_TIME
    .ok ((pyTruthy content && decide (the_year ≠ NULL_YEAR))
      && (pyTruthy content && decide (the_time ≠ NULL_TIME)))

/-- Strips leading zeros from a numeral string (used when requested). -/
def stripLeadingZeros (s : String) : String :=
  match s.data.dropWhile (fun c => c == '0') with
  | [] => "0"
  | l => String.mk l

/-- Modelled from the spec: `fntools.is_null(value, blanks_as_nulls)` is true
for an absent value and, when `blanks_as_nulls` holds, for a string that is
empty or all whitespace. -/
def is_null (v : Value) (blanks_as_nulls : Bool) : Bool :=
  match v with
  | .vnone => true
  | .vstr s => blanks_as_nulls && s.data.all (fun c => c.isWhitespace)
  | _ => false

/-- Modelled from the spec: `fntools.is_bool(value)` is true for a native
boolean or a string matching the accepted boolean vocabulary. -/
def is_bool (v : Value) : Bool :=
  match v with
  | .vbool _ => true
  | .vstr s => s.toLower == "true" || s.toLower == "false"
  | _ => false

/-- Modelled from the spec: `fntools.is_int(value, strip_zeros)` is true when
the value parses as an integer (a Python bool is an int); leading zeros are
stripped first when requested. -/
def is_int (v : Value) (strip_zeros : Bool) : Bool :=
  match v with
  | .vint _ => true
  | .vbool _ => true
  | .vstr s => ((if strip_zeros then stripLeadingZeros s else s).toInt?).isSome
  | _ => false

/-- Whether a string parses as a real number (an optional integer part, a
point, and a digit sequence, or a plain integer numeral). -/
def isNumStr (s : String) : Bool :=
  s.toInt?.isSome ||
    (match s.splitOn "." with
     | [a, b] => (a.isEmpty || a.toInt?.isSome) && b.toNat?.isSome
     | _ => false)

/-- Modelled from the spec: `fntools.is_numeric(value, strip_zeros)` is true
when the value parses as a real number. -/
def is_numeric (v : Value) (strip_zeros : Bool) : Bool :=
  match v with
  | .vint _ => true
  | .vfloat _ => true
  | .vbool _ => true
  | .vstr s => isNumStr (if strip_zeros then stripLeadingZeros s else s)
  | _ => false

/-- The raw runtime-type label built by `typetools.type_test` when a test
raises `AttributeError`: the substrings "type" and "datetime." are removed
from `str(type(value))` and the surrounding quoting/brackets are trimmed. -/
def rawTypeLabel (v : Value) : String :=
  pyStrip [' ', '\x27', '<', '>']
    (mreplace (pyTypeStr v) [("type", ""), ("datetime.", "")])

/-- Embeds `typetools.type_test`: runs one rule test on a value; a passing
test yields the rule label, a failing test yields nothing, and a test that
raises `AttributeError` yields the raw runtime-type label instead.  Any other
exception would propagate. -/
def type_test (test : Value → Except PyError Bool) (t : String) (key : String)
    (v : Value) : Except PyError (Option (String × String)) :=
  match test v with
  | .ok true => .ok (some (key, t))
  | .ok false => .ok none
  | .error (.attributeError _) => .ok (some (key, rawTypeLabel v))
  | .error e => .error e

/-- The ordered rule chain of `typetools.guess_type_by_value`. -/
def valueGuessFuncs (blanks_as_nulls strip_zeros : Bool) :
    List (String × (Value → Except PyError Bool)) :=
  [("null", fun v => .ok (is_null v blanks_as_nulls)),
   ("bool", fun v => .ok (is_bool v)),
   ("int", fun v => .ok (is_int v strip_zeros)),
   ("float", fun v => .ok (is_numeric v strip_zeros)),
   ("datetime", is_datetime),
   ("time", is_time),
   ("date", is_date),
   ("text", fun v => .ok (hasLower v))]

/-- Runs the rule chain on one field: the first rule whose `type_test` yields
a result wins; when every rule yields nothing the loop's `else` clause raises
the InvalidInput `TypeError` of the source. -/
def runChain (funcs : List (String × (Value → Except PyError Bool)))
    (key : String) (v : Value) : Except PyError (String × String) :=
  match funcs with
  | [] => .error (.typeError "could not guess type of value")
  | (t, f) :: rest =>
    match type_test f t key v with
    | .ok (some r) => .ok r
    | .ok none => runChain rest key v
    | .error e => .error e

/-- Embeds `typetools.guess_type_by_value`: classifies every field of a
record in order; the first failing field aborts the whole call. -/
def guess_type_by_value (record : List (String × Value))
    (blanks_as_nulls strip_zeros : Bool) :
    Except PyError (List (String × String)) :=
  match record with
  | [] => .ok []
  | kv :: rest =>
    match runChain (valueGuessFuncs blanks_as_nulls strip_zeros) kv.1 kv.2 with
    | .error e => .error e
    | .ok r =>
      match guess_type_by_value rest blanks_as_nulls strip_zeros with
      | .error e => .error e
      | .ok rs => .ok (r :: rs)

/-- The ordered rule chain of `typetools.guess_type_by_field`. -/
def fieldGuessFuncs : List (String × (String → Bool)) :=
  [("datetime", fun x => pyIn "date" x && pyIn "time" x),
   ("date", fun x => pyIn "date" x),
   ("time", fun x => pyIn "time" x),
   ("float", fun x => find ["value", "length", "width", "days"] [x]),
   ("int", fun x => pyIn "count" x),
   ("text", fun _ => true)]

/-- First-match-wins evaluation of a boolean rule chain. -/
def firstMatchIn {α : Type} (funcs : List (String × (α → Bool))) (v : α) :
    Option String :=
  match funcs with
  | [] => none
  | (t, f) :: rest => if f v then some t else firstMatchIn rest v

/-- Embeds `typetools.guess_type_by_field`: classifies every field name by
the first matching rule; the tests are string probes, so `type_test` never
sees an attribute failure here and a name with a match is yielded as the
pair (field id, type). -/
def guess_type_by_field (content : List String) : List (String × String) :=
  content.filterMap
    (fun x => (firstMatchIn fieldGuessFuncs x).map (fun t => (x, t)))

/-- The rule chain of the claim on `guess_type_by_field`, written as the
specification words it: one nested first-match-wins conditional. -/
def claim_field_type (x : String) : String :=
  if pyIn "date" x && pyIn "time" x then "datetime"
  else if pyIn "date" x then "date"
  else if pyIn "time" x then "time"
  else if find ["value", "length", "width", "days"] [x] then "float"
  else if pyIn "count" x then "int"
  else "text"

/-- The outcome of one pass of a reader over a source: the records it
yielded, and the error (if any) that ended the pass. -/
structure RunRes (α : Type) where
  recs : List α
  err : Option PyError
  deriving DecidableEq, Repr

/-- Embeds `io._read_any`: run the reader with the assumed encoding keyword,
counting yielded records in `pos`.  On a `UnicodeDecodeError`, seek back,
substitute the detected encoding into the keyword arguments and rerun the
reader, yielding only records whose zero-based index is at least `pos`.  On
any other error whose message is "line contains NULL byte", and only when
`convert` holds (a real path, not a caller-supplied object), rerun the reader
over the UTF-8 recoded source the same way.  Any other error propagates with
the records already yielded.  `run e` stands for one full pass of
`reader(f, *args, encoding=e, ...)` and `utf8Run` for a pass of the reader
over `get_utf8`'s recoded buffer. -/
def _read_any {α : Type} (run : String → RunRes α) (enc detected : String)
    (convert : Bool) (utf8Run : RunRes α) : RunRes α :=
  let first := run enc
  match first.err with
  | none => first
  | some .unicodeDecodeError =>
    let second := run detected
    ⟨first.recs ++ second.recs.drop first.recs.length, second.err⟩
  | some e =>
    if e.message == "line contains NULL byte" && convert then
      ⟨first.recs ++ utf8Run.recs.drop first.recs.length, utf8Run.err⟩
    else first

/-- A concrete source for exercising `_read_any`: read with the wrong
encoding "ascii" it fails after one record; read with any other encoding it
yields three records cleanly. -/
def runDecodeFail : String → RunRes Nat :=
  fun e => if e == "ascii" then ⟨[10], some .unicodeDecodeError⟩
    else ⟨[10, 20, 30], none⟩

/-- The state of an `IterStringIO` stream adapter: the pending encoded input
(one inner list of bytes per consumed element), the bounded lookback deque,
the position counter, and the deque capacity (`bufsize`, default 4096).
Elements are bytes; the synthetic newline appended by `_read` is byte 10. -/
structure IterStringIOState where
  iter : List (List Nat)
  last : List Nat
  pos : Nat
  cap : Nat
  deriving DecidableEq, Repr

/-- The last `n` elements of a list (what a deque of maxlen `n` retains). -/
def takeLast (n : Nat) (l : List α) : List α :=
  l.drop (l.length - n)

/-- Python truthiness of the optional `n` limit of `IterStringIO._read`:
both `None` and `0` are falsy, so both mean "no limit". -/
def truthyLimit (n : Option Nat) : Bool :=
  match n with
  | none => false
  | some k => k != 0

/-- Embeds `IterStringIO._read` (and hence `read`): consume the first `n`
elements of the pending input (all of it when `n` is falsy), assemble them
into one byte sequence, extend the lookback deque with those bytes, advance
the position counter by the byte count, and finally append one synthetic
newline element to the deque. -/
def IterStringIOState.read (s : IterStringIOState) (n : Option Nat) :
    List Nat × IterStringIOState :=
  let taken := if truthyLimit n then s.iter.take (n.getD 0) else s.iter
  let rest := if truthyLimit n then s.iter.drop (n.getD 0) else []
  let b := byte taken
  let afterExtend := takeLast s.cap (s.last ++ b)
  let afterAppend := takeLast s.cap (afterExtend ++ [10])
  (b, ⟨rest, afterAppend, s.pos + b.length, s.cap⟩)

/-- Embeds `IterStringIO.seek(n)`: re-prepend the retained lookback tail from
offset `n` onward ahead of the pending input and reset the position counter
to `n`; the deque itself is left unchanged. -/
def IterStringIOState.seek (s : IterStringIOState) (n : Nat) :
    IterStringIOState :=
  ⟨(s.last.drop n).map (fun x => [x]) ++ s.iter, s.last, n, s.cap⟩

/-- Embeds `IterStringIO.tell`. -/
def IterStringIOState.tell (s : IterStringIOState) : Nat :=
  s.pos

/-- A concrete stream state holding the two bytes "hi" and no newline. -/
def hiState : IterStringIOState :=
  ⟨[[104], [105]], [], 0, 4096⟩

/-- The cell type tags delivered by the spreadsheet engine
(`XL_CELL_DATE`, `XL_CELL_EMPTY`, `XL_CELL_NUMBER`, `XL_CELL_BOOLEAN`,
`XL_CELL_ERROR`, and any unrecognized tag). -/
inductive CellT where
  | cdate
  | cempty
  | cnumber
  | cboolean
  | cerror
  | cother
  deriving DecidableEq, Repr

/-- The string a cell is reduced to, kept symbolic: which conversion ran and
with which format string.  `strfDT fmt v` is `xl2dt(v, mode).strftime(fmt)`
(used by both the date and the datetime switch entries), `strfTime fmt v` is
`time(*xldate_as_tuple(v, mode)[3:]).strftime(fmt)`. -/
inductive CellOut where
  | strfDT (fmt : String) (v : ℚ)
  | strfTime (fmt : String) (v : ℚ)
  | emptyStr
  | numStr (v : ℚ)
  | boolStr (b : Bool)
  | errStr (v : ℚ)
  | passthrough (v : ℚ)
  deriving DecidableEq, Repr

/-- The keyword arguments of `sanitize_sheet` relevant to formatting. -/
structure SheetKwargs where
  date_format : Option String
  dt_format : Option String
  time_format : Option String
  deriving DecidableEq, Repr

/-- The kwargs of `sanitize_sheet` when no formatting keyword is passed. -/
def defaultSheetKwargs : SheetKwargs :=
  ⟨none, none, none⟩

/-- The truthiness of the expression `value.is_integer` in the source: the
attribute access is not a call, so it denotes the bound method object, which
is always truthy regardless of the value. -/
def pyIsIntegerAttr (_ : ℚ) : Bool :=
  true

/-- Whether a float value is integral (what `value.is_integer()` would
compute had the method been called). -/
def isIntegerRat (v : ℚ) : Bool :=
  v.den == 1

/-- Embeds the per-cell body of `io.sanitize_sheet`: the three format strings
are all fetched from the `date_format` keyword (the source reads the
`date_format` key for `dt_format` and `time_format` too), a date cell whose
value is below 1 is reclassified as a time, a date cell for which
`not value.is_integer` holds is reclassified as a datetime, and the switch
then maps the cell through its entry. -/
def sanitize_cell (kw : SheetKwargs) (t : CellT) (v : ℚ) : CellOut :=
  let date_format := kw.date_format.getD "%Y-%m-%d"
  let dt_format := kw.date_format.getD "%Y-%m-%d %H:%M:%S"
  let time_format := kw.date_format.getD "%H:%M:%S"
  if t = .cdate ∧ v < 1 then .strfTime time_format v
  else if t = .cdate ∧ pyIsIntegerAttr v = false then .strfDT dt_format v
  else
    match t with
    | .cdate => .strfDT date_format v
    | .cempty => .emptyStr
    | .cnumber => .numStr v
    | .cboolean => .boolStr (decide (v ≠ 0))
    | .cerror => .errStr v
    | .cother => .passthrough v

/-- Embeds `io.sanitize_sheet` over a whole sheet (rows of typed cells),
yielding (row number, sanitized value) pairs from `first_col` onward. -/
def sanitize_sheet (kw : SheetKwargs) (sheet : List (List (CellT × ℚ)))
    (first_col : Nat) : List (Nat × CellOut) :=
  sheet.enum.flatMap
    (fun ir => (ir.2.drop first_col).map (fun c => (ir.1, sanitize_cell kw c.1 c.2)))

/-- The formatting rule for date cells exactly as the claim states it: below
1 the time format, non-integral the datetime format, otherwise the date
format (defaults as given in the claim). -/
def claim_sanitize_date (v : ℚ) : CellOut :=
  if v < 1 then .strfTime "%H:%M:%S" v
  else if isIntegerRat v = false then .strfDT "%Y-%m-%d %H:%M:%S" v
  else .strfDT "%Y-%m-%d" v

/-- The content handed to `io.write`: either decoded text (encoded with the
process default encoding before writing) or an already byte-shaped stream
(a byte string, or a list flattened through `fntools.byte`). -/
inductive WContent where
  | wtext (s : List Char)
  | wbytes (b : List Nat)
  deriving DecidableEq, Repr

/-- The UTF-8 byte length of a piece of text. -/
def utf8Len (s : List Char) : Nat :=
  (s.map Char.utf8Size).sum

/-- One loop iteration of `io.write`: the first component accumulates
`progress += chunksize or len(c)`, the second the bytes actually written. -/
def writeStep {α : Type} (chunksize : Nat) (encLen pyLen : List α → Nat)
    (acc : Nat × Nat) (c : List α) : Nat × Nat :=
  (acc.1 + (if chunksize = 0 then pyLen c else chunksize), acc.2 + encLen c)

/-- Embeds `io.write` (its `_write` worker): chunk the content, encode each
piece, write it, and accumulate `progress`; the pair is (the returned
`progress`, the total bytes written to the destination).  `0` for
`chunksize` stands for the unset/None case. -/
def write (content : WContent) (chunksize : Nat) : Nat × Nat :=
  match content with
  | .wtext s => (chunk s chunksize).foldl (writeStep chunksize utf8Len List.length) (0, 0)
  | .wbytes b => (chunk b chunksize).foldl (writeStep chunksize List.length List.length) (0, 0)

/-- The byte content "Hello World" (11 bytes). -/
def helloWorldBytes : List Nat :=
  [72, 101, 108, 108, 111, 32, 87, 111, 114, 108, 100]

/-- A JSON scalar of a GeoJSON document. -/
inductive JVal where
  | jnull
  | jbool (b : Bool)
  | jnum (q : ℚ)
  | jstr (s : String)
  deriving DecidableEq, Repr

/-- A GeoJSON feature: an optional id, optional properties, and its
geometry fields. -/
structure Feature where
  id : Option JVal
  properties : Option (List (String × JVal))
  geometry : List (String × JVal)
  deriving DecidableEq, Repr

/-- A GeoJSON document, reduced to the part `read_geojson` consumes: its
"features" collection, when present. -/
structure GeoDoc where
  features : Option (List Feature)
  deriving DecidableEq, Repr

/-- Modelled from the spec: `process.merge(mappings)` combines key-value
mappings, later mappings overriding earlier ones on key conflict. -/
def merge (ms : List (List (String × JVal))) : List (String × JVal) :=
  ms.foldl
    (fun acc m => acc.filter (fun kv => m.all (fun kv2 => kv2.1 != kv.1)) ++ m)
    []

/-- Embeds the reader of `io.read_geojson`: a document without a "features"
collection fails with the InvalidInput `TypeError` of the source (and yields
no records); otherwise every feature is flattened into the merge of its id,
its properties and its geometry. -/
def read_geojson (doc : GeoDoc) : Except PyError (List (List (String × JVal))) :=
  match doc.features with
  | none => .error (.typeError "Only GeoJSON with features are supported.")
  | some fs =>
    .ok (fs.map (fun f =>
      merge [[("id", f.id.getD .jnull)], f.properties.getD [], f.geometry]))

/-- Whether one rule test returned a clean false (no match, no failure). -/
def cleanFalse (r : Except PyError Bool) : Bool :=
  match r with
  | .ok false => true
  | _ => false

/-- Whether every rule test of the value chain returns a clean false on a
value (so the field loop finishes without a break and without a raw-type
report). -/
def failsAllTests (blanks_as_nulls strip_zeros : Bool) (v : Value) : Bool :=
  (valueGuessFuncs blanks_as_nulls strip_zeros).all
    (fun tf => cleanFalse (tf.2 v))

/-- The label of the first rule whose test returns a clean true, provided no
earlier test failed with an exception. -/
def cleanFirstLabel (funcs : List (String × (Value → Except PyError Bool)))
    (v : Value) : Option String :=
  match funcs with
  | [] => none
  | (t, f) :: rest =>
    match f v with
    | .ok true => some t
    | .ok false => cleanFirstLabel rest v
    | .error _ => none

/-- A record whose every value cleanly matches one of the guessing rules. -/
def goodRecord : List (String × Value) :=
  [("null", .vnone), ("bool", .vbool false), ("int", .vint 10),
   ("float", .vfloat (3 / 2)), ("date", .vdate 1982 5 4),
   ("time", .vtime 2 30 0), ("datetime", .vdatetime 1982 5 4 2 0 0)]

/-- Every field name is classified by the nested first-match-wins chain. -/
theorem firstMatch_field (x : String) :
    firstMatchIn fieldGuessFuncs x = some (claim_field_type x) := by
  simp only [fieldGuessFuncs, firstMatchIn, claim_field_type]
  split_ifs <;> rfl

/-- Claim C6: `guess_type_by_field` classifies each name by the
first-match-wins rule chain datetime, date, time, float, int, text (in that
exact order), producing one (field id, type) pair per name in input order;
in particular the five-name example of the specification yields the types
date, float, datetime, float, text. -/
theorem guess_type_by_field_spec :
    (∀ names : List String,
      guess_type_by_field names =
        names.map (fun n => (n, claim_field_type n))) ∧
    guess_type_by_field ["date", "raw_value", "date_and_time", "length",
        "field"] =
      [("date", "date"), ("raw_value", "float"), ("date_and_time", "datetime"),
       ("length", "float"), ("field", "text")] := by
  constructor
  · intro names
    induction names with
    | nil => rfl
    | cons a t ih =>
      simp [guess_type_by_field, List.filterMap_cons, firstMatch_field] at ih ⊢
      exact ih
  · decide

/-- Claim C2 theorem: `get_reader` returns the matching reader for every
extension of the fixed table, and fails with a not-found error (the
`KeyError` of the failed table lookup) for every extension outside it. -/
theorem get_reader_spec :
    (∀ ext name, (ext, name) ∈ switch → get_reader ext = .ok name) ∧
    (∀ ext, ext ∉ switch.map Prod.fst →
      ∃ e, get_reader ext = .error e ∧ e.isNotFound = true) := by
  constructor
  · intro ext name h
    simp only [switch, List.mem_cons, List.not_mem_nil, or_false,
      Prod.mk.injEq] at h
    rcases h with ⟨h1, h2⟩ | ⟨h1, h2⟩ | ⟨h1, h2⟩ | ⟨h1, h2⟩ | ⟨h1, h2⟩ |
      ⟨h1, h2⟩ | ⟨h1, h2⟩ | ⟨h1, h2⟩ | ⟨h1, h2⟩ | ⟨h1, h2⟩ <;>
      subst h1 <;> subst h2 <;> rfl
  · intro ext h
    refine ⟨.keyError ext, ?_, rfl⟩
    have hf : switch.find? (fun kv => kv.1 == ext) = none := by
      apply List.find?_eq_none.mpr
      intro kv hkv
      simp only [beq_iff_eq]
      intro heq
      exact h (List.mem_map.mpr ⟨kv, hkv, heq⟩)
    unfold get_reader lookupSwitch
    rw [hf]
    rfl

/-- Claim C2 witness: the csv and xls extensions resolve to their readers and
the empty extension fails with a not-found error. -/
theorem get_reader_spec_witness :
    get_reader "csv" = .ok "read_csv" ∧ get_reader "xls" = .ok "read_xls" ∧
    ∃ e, get_reader "" = .error e ∧ e.isNotFound = true :=
  ⟨get_reader_spec.1 "csv" "read_csv" (by decide),
   get_reader_spec.1 "xls" "read_xls" (by decide),
   get_reader_spec.2 "" (by decide)⟩

/-- Claim C9: a `read(0)` call on the stream adapter behaves exactly like a
`read()` with no limit, returning all remaining encoded elements - and in
particular a non-empty result whenever input remains - because the source
guards the `islice` with the truthiness of `n`, and `0` is falsy. -/
theorem iter_read_zero_spec :
    ∀ s : IterStringIOState,
      IterStringIOState.read s (some 0) = IterStringIOState.read s none ∧
      (IterStringIOState.read s (some 0)).1 = byte s.iter ∧
      (byte s.iter ≠ [] → (IterStringIOState.read s (some 0)).1 ≠ []) := by
  intro s
  refine ⟨rfl, rfl, fun h => ?_⟩
  simpa [IterStringIOState.read, truthyLimit] using h

/-- Claim C9 witness: on the concrete two-byte stream, input remains and
`read(0)` returns a non-empty result. -/
theorem iter_read_zero_spec_witness :
    byte hiState.iter ≠ [] ∧
    (IterStringIOState.read hiState (some 0)).1 ≠ [] :=
  ⟨by decide, (iter_read_zero_spec hiState).2.2 (by decide)⟩

/-- Claim C5 counterexample: on a document without a "features" collection
the reader fails with the InvalidInput `TypeError` whose message carries a
trailing period, so the message is not the exact string quoted by the
claim. -/
theorem read_geojson_message_counterexample :
    read_geojson ⟨none⟩ =
      .error (.typeError "Only GeoJSON with features are supported.") ∧
    "Only GeoJSON with features are supported." ≠
      "Only GeoJSON with features are supported" :=
  ⟨rfl, by decide⟩

/-- Claim C5 (amended): every document lacking a "features" collection makes
`read_geojson` fail with an InvalidInput error whose message is
"Only GeoJSON with features are supported." (trailing period included), and
the failure yields no records. -/
theorem read_geojson_no_features :
    ∀ doc : GeoDoc, doc.features = none →
      read_geojson doc =
        .error (.typeError "Only GeoJSON with features are supported.") := by
  intro doc h
  unfold read_geojson
  rw [h]

/-- Claim C5 witness: the empty document has no features and fails. -/
theorem read_geojson_no_features_witness :
    read_geojson ⟨none⟩ =
      .error (.typeError "Only GeoJSON with features are supported.") :=
  read_geojson_no_features ⟨none⟩ rfl

/-- The progress accumulator of `write` advances by the chunk size for every
piece, regardless of the piece's actual length. -/
theorem writeStep_foldl_fst {α : Type} (k : Nat) (enc : List α → Nat)
    (pieces : List (List α)) (a c : Nat) :
    (pieces.foldl (writeStep (k + 1) enc List.length) (a, c)).1 =
      a + (k + 1) * pieces.length := by
  induction pieces generalizing a c with
  | nil => simp
  | cons p t ih =>
    simp only [List.foldl_cons, writeStep, List.length_cons]
    rw [if_neg (Nat.succ_ne_zero k), ih, Nat.mul_succ]
    omega

/-- Claim C4 counterexample: writing the 11 bytes of "Hello World" with
`chunksize = 2` returns 12 although 11 bytes are written, because the source
adds `chunksize or len(c)` per piece even for the short final piece (its own
doctest records the value 12). -/
theorem write_return_counterexample :
    (write (.wbytes helloWorldBytes) 2).1 ≠
      (write (.wbytes helloWorldBytes) 2).2 := by
  decide

/-- Claim C4 (amended): the value returned by `write` is the total bytes
written when `chunksize` is unset and the content is already byte-shaped;
when `chunksize` is set, the return is `chunksize` times the number of
pieces, which can overstate the bytes written. -/
theorem write_return_spec :
    (∀ b : List Nat, (write (.wbytes b) 0).1 = (write (.wbytes b) 0).2) ∧
    (∀ (b : List Nat) (k : Nat),
      (write (.wbytes b) (k + 1)).1 = (k + 1) * (chunk b (k + 1)).length) := by
  constructor
  · intro b
    simp [write, chunk, writeStep]
  · intro b k
    unfold write
    rw [writeStep_foldl_fst]
    simp [chunk]

/-- Claim C3: evaluation at the failing input.  A date cell holding the
non-integral value 3/2 is formatted with the date format rather than the
datetime format required by the claim, because the source tests the
truthiness of the bound method `value.is_integer` instead of calling it, so
the datetime branch never runs; the below-1 time branch and the integral
date branch behave as claimed. -/
theorem sanitize_cell_date_eval :
    sanitize_cell defaultSheetKwargs .cdate ((3 : ℚ) / 2) =
      .strfDT "%Y-%m-%d" ((3 : ℚ) / 2) ∧
    claim_sanitize_date ((3 : ℚ) / 2) =
      .strfDT "%Y-%m-%d %H:%M:%S" ((3 : ℚ) / 2) ∧
    sanitize_cell defaultSheetKwargs .cdate ((3 : ℚ) / 2) ≠
      claim_sanitize_date ((3 : ℚ) / 2) ∧
    sanitize_cell defaultSheetKwargs .cdate ((1 : ℚ) / 2) =
      .strfTime "%H:%M:%S" ((1 : ℚ) / 2) ∧
    claim_sanitize_date ((1 : ℚ) / 2) = .strfTime "%H:%M:%S" ((1 : ℚ) / 2) ∧
    sanitize_cell defaultSheetKwargs .cdate (2 : ℚ) =
      .strfDT "%Y-%m-%d" (2 : ℚ) ∧
    claim_sanitize_date (2 : ℚ) = .strfDT "%Y-%m-%d" (2 : ℚ) := by
  have e1 : sanitize_cell defaultSheetKwargs .cdate ((3 : ℚ) / 2) =
      .strfDT "%Y-%m-%d" ((3 : ℚ) / 2) := by
    norm_num [sanitize_cell, defaultSheetKwargs, pyIsIntegerAttr]
  have e2 : claim_sanitize_date ((3 : ℚ) / 2) =
      .strfDT "%Y-%m-%d %H:%M:%S" ((3 : ℚ) / 2) := by
    norm_num [claim_sanitize_date, isIntegerRat]
  refine ⟨e1, e2, ?_, ?_, ?_, ?_, ?_⟩
  · rw [e1, e2]
    simp
  · norm_num [sanitize_cell, defaultSheetKwargs, pyIsIntegerAttr]
  · norm_num [claim_sanitize_date, isIntegerRat]
  · norm_num [sanitize_cell, defaultSheetKwargs, pyIsIntegerAttr]
  · norm_num [claim_sanitize_date, isIntegerRat]

/-- Claim C1: on a decoding failure after `N = firstRecs.length` records,
the driver reruns the reader with the detected encoding and emits only the
records of zero-based index at least `N`; when the restarted reader
reproduces the already-emitted prefix, the overall output is exactly the
full record sequence, so nothing is emitted twice. -/
theorem read_any_retry_spec {α : Type} (run : String → RunRes α)
    (enc det : String) (conv : Bool) (u : RunRes α) (firstRecs rs : List α)
    (h1 : run enc = ⟨firstRecs, some .unicodeDecodeError⟩)
    (h2 : run det = ⟨rs, none⟩) :
    (_read_any run enc det conv u).recs =
      firstRecs ++ rs.drop firstRecs.length ∧
    (_read_any run enc det conv u).err = none ∧
    (firstRecs = rs.take firstRecs.length →
      (_read_any run enc det conv u).recs = rs) := by
  have hmain : _read_any run enc det conv u =
      ⟨firstRecs ++ rs.drop firstRecs.length, none⟩ := by
    unfold _read_any
    rw [h1]
    simp only
    rw [h2]
  refine ⟨by rw [hmain], by rw [hmain], fun hpre => ?_⟩
  rw [hmain]
  simp only
  nth_rewrite 1 [hpre]
  exact List.take_append_drop firstRecs.length rs

/-- Claim C1 witness: a concrete source failing with the wrong encoding
after one record produces exactly the three records once. -/
theorem read_any_retry_spec_witness :
    (_read_any runDecodeFail "ascii" "utf8" true ⟨[], none⟩).recs =
      [10, 20, 30] :=
  (read_any_retry_spec runDecodeFail "ascii" "utf8" true ⟨[], none⟩
    [10] [10, 20, 30] (by decide) (by decide)).2.2 (by decide)

/-- Evicting from a bounded buffer before appending gives the same retained
window as appending first and evicting once. -/
theorem takeLast_append_takeLast {α : Type} (c : Nat) (xs ys : List α) :
    takeLast c (takeLast c xs ++ ys) = takeLast c (xs ++ ys) := by
  unfold takeLast
  rw [List.drop_append_eq_append_drop, List.drop_append_eq_append_drop,
    List.drop_drop]
  have h1 : xs.length - c + ((xs.drop (xs.length - c) ++ ys).length - c) =
      (xs ++ ys).length - c := by
    simp only [List.length_append, List.length_drop]
    omega
  have h2 : (xs.drop (xs.length - c) ++ ys).length - c -
      (xs.drop (xs.length - c)).length = (xs ++ ys).length - c - xs.length := by
    simp only [List.length_append, List.length_drop]
    omega
  rw [h1, h2]

/-- A buffer of sufficient capacity retains everything. -/
theorem takeLast_of_le {α : Type} (c : Nat) (l : List α) (h : l.length ≤ c) :
    takeLast c l = l := by
  unfold takeLast
  have : l.length - c = 0 := by omega
  rw [this, List.drop_zero]

/-- Claim C10: every `read`/`readline` consumption of a byte sequence `b`
advances the `tell` counter by exactly `b.length`, while the lookback deque
retains the last `cap` elements of its old content followed by `b` and one
synthetic newline element (byte 10) that was not part of the consumed input;
with enough capacity the deque therefore gains exactly `b ++ [10]`, and the
replay produced by a subsequent `seek` can contain synthetic newline
elements absent from the original data, as the closing concrete conjunct
shows on a newline-free stream. -/
theorem iter_read_buffer_spec :
    ∀ (s : IterStringIOState) (n : Option Nat),
      (IterStringIOState.read s n).2.tell =
        s.tell + (IterStringIOState.read s n).1.length ∧
      (IterStringIOState.read s n).2.last =
        takeLast s.cap (s.last ++ (IterStringIOState.read s n).1 ++ [10]) ∧
      (s.last.length + (IterStringIOState.read s n).1.length + 1 ≤ s.cap →
        (IterStringIOState.read s n).2.last =
          s.last ++ (IterStringIOState.read s n).1 ++ [10]) ∧
      (10 ∈ byte ((IterStringIOState.seek
        (IterStringIOState.read hiState none).2 0).iter) ∧
       10 ∉ byte hiState.iter) := by
  intro s n
  have hbuf : (IterStringIOState.read s n).2.last =
      takeLast s.cap (s.last ++ (IterStringIOState.read s n).1 ++ [10]) := by
    show takeLast s.cap
        (takeLast s.cap (s.last ++ (IterStringIOState.read s n).1) ++ [10]) =
      takeLast s.cap (s.last ++ (IterStringIOState.read s n).1 ++ [10])
    rw [takeLast_append_takeLast, List.append_assoc]
  refine ⟨rfl, hbuf, fun h => ?_, by decide, by decide⟩
  rw [hbuf]
  apply takeLast_of_le
  simp only [List.append_assoc, List.length_append, List.length_cons,
    List.length_nil]
  omega

/-- Claim C10 witness: on the concrete two-byte stream the capacity bound
holds and the deque gains the two bytes plus the synthetic newline. -/
theorem iter_read_buffer_spec_witness :
    hiState.last.length + (IterStringIOState.read hiState none).1.length + 1 ≤
      hiState.cap ∧
    (IterStringIOState.read hiState none).2.last =
      hiState.last ++ (IterStringIOState.read hiState none).1 ++ [10] :=
  ⟨by decide, (iter_read_buffer_spec hiState none).2.2.1 (by decide)⟩

/-- Claim C7: the predicates agree through the sentinels `NULL_YEAR = 9999`
and the midnight `NULL_TIME`: a date-only value with a non-sentinel year
satisfies `is_date` but not `is_time`; a time-only value with a non-sentinel
time satisfies `is_time` but not `is_date`; a combined value with both
non-sentinel parts satisfies `is_date`, `is_time` and `is_datetime`. -/
theorem date_time_predicates_agree :
    ∀ y m d hh mm ss : Nat,
      (y ≠ NULL_YEAR →
        is_date (.vdate y m d) = .ok true ∧
        is_time (.vdate y m d) = .ok false) ∧
      ((hh, mm, ss) ≠ NULL_TIME →
        is_date (.vtime hh mm ss) = .ok false ∧
        is_time (.vtime hh mm ss) = .ok true) ∧
      (y ≠ NULL_YEAR → (hh, mm, ss) ≠ NULL_TIME →
        is_date (.vdatetime y m d hh mm ss) = .ok true ∧
        is_time (.vdatetime y m d hh mm ss) = .ok true ∧
        is_datetime (.vdatetime y m d hh mm ss) = .ok true) := by
  intro y m d hh mm ss
  refine ⟨fun h => ⟨?_, ?_⟩, fun h => ⟨?_, ?_⟩, fun h1 h2 => ⟨?_, ?_, ?_⟩⟩ <;>
    simp_all [is_date, is_time, is_datetime, to_datetime, NULL_YEAR, NULL_TIME]

/-- Claim C7 witness: the concrete date 1982-05-04, the time 02:30:00, and
their combination instantiate the three cases. -/
theorem date_time_predicates_agree_witness :
    is_date (.vdate 1982 5 4) = .ok true ∧
    is_time (.vdate 1982 5 4) = .ok false ∧
    is_date (.vtime 2 30 0) = .ok false ∧
    is_time (.vtime 2 30 0) = .ok true ∧
    is_datetime (.vdatetime 1982 5 4 2 30 0) = .ok true :=
  ⟨((date_time_predicates_agree 1982 5 4 2 30 0).1 (by decide)).1,
   ((date_time_predicates_agree 1982 5 4 2 30 0).1 (by decide)).2,
   ((date_time_predicates_agree 1982 5 4 2 30 0).2.1 (by decide)).1,
   ((date_time_predicates_agree 1982 5 4 2 30 0).2.1 (by decide)).2,
   ((date_time_predicates_agree 1982 5 4 2 30 0).2.2 (by decide)
     (by decide)).2.2⟩

/-- A field whose every rule test returns a clean false makes the rule loop
finish without a break, so its `else` clause raises the InvalidInput
error. -/
theorem runChain_all_false
    (funcs : List (String × (Value → Except PyError Bool))) (key : String)
    (v : Value) (h : funcs.all (fun tf => cleanFalse (tf.2 v)) = true) :
    runChain funcs key v = .error (.typeError "could not guess type of value") := by
  induction funcs with
  | nil => rfl
  | cons tf rest ih =>
    obtain ⟨t, f⟩ := tf
    simp only [List.all_cons, Bool.and_eq_true] at h
    obtain ⟨h1, h2⟩ := h
    have hf : f v = .ok false := by
      cases hfv : f v with
      | error e => rw [hfv] at h1; simp [cleanFalse] at h1
      | ok b =>
        cases b with
        | false => rfl
        | true => rw [hfv] at h1; simp [cleanFalse] at h1
    simp only [runChain, type_test, hf]
    exact ih h2

/-- A field whose chain reaches a clean first match is classified with that
label. -/
theorem runChain_clean_match
    (funcs : List (String × (Value → Except PyError Bool))) (key : String)
    (v : Value) (t : String) (h : cleanFirstLabel funcs v = some t) :
    runChain funcs key v = .ok (key, t) := by
  induction funcs with
  | nil => simp [cleanFirstLabel] at h
  | cons tf rest ih =>
    obtain ⟨t0, f⟩ := tf
    cases hfv : f v with
    | error e => simp [cleanFirstLabel, hfv] at h
    | ok b =>
      cases b with
      | false =>
        have h2 : cleanFirstLabel rest v = some t := by
          simpa [cleanFirstLabel, hfv] using h
        simp only [runChain, type_test, hfv]
        exact ih h2
      | true =>
        have ht : t0 = t := by simpa [cleanFirstLabel, hfv] using h
        subst ht
        simp [runChain, type_test, hfv]

/-- A record containing a field on which every rule test is cleanly false
makes the whole `guess_type_by_value` call fail. -/
theorem guess_error_of_mem (record : List (String × Value))
    (b s : Bool) (k : String) (v : Value) (hmem : (k, v) ∈ record)
    (hfail : failsAllTests b s v = true) :
    exceptOk (guess_type_by_value record b s) = false := by
  induction record with
  | nil => simp at hmem
  | cons kv rest ih =>
    rcases List.mem_cons.mp hmem with h | h
    · subst h
      have hrc : runChain (valueGuessFuncs b s) k v =
          .error (.typeError "could not guess type of value") :=
        runChain_all_false _ _ _ hfail
      simp [guess_type_by_value, hrc, exceptOk]
    · cases hy : runChain (valueGuessFuncs b s) kv.1 kv.2 with
      | error e => simp [guess_type_by_value, hy, exceptOk]
      | ok y =>
        have hrest := ih h
        cases hrest2 : guess_type_by_value rest b s with
        | error e => simp [guess_type_by_value, hy, hrest2, exceptOk]
        | ok ys => rw [hrest2] at hrest; simp [exceptOk] at hrest

/-- A record whose every field cleanly matches a rule is classified field by
field, in input order, by the first matching rule. -/
theorem guess_ok_of_clean (record : List (String × Value)) (b s : Bool)
    (h : ∀ kv ∈ record,
      (cleanFirstLabel (valueGuessFuncs b s) kv.2).isSome = true) :
    guess_type_by_value record b s =
      .ok (record.map (fun kv =>
        (kv.1, (cleanFirstLabel (valueGuessFuncs b s) kv.2).getD "text"))) := by
  induction record with
  | nil => rfl
  | cons kv rest ih =>
    have hh := h kv (List.mem_cons_self kv rest)
    obtain ⟨t, ht⟩ := Option.isSome_iff_exists.mp hh
    have hrc := runChain_clean_match (valueGuessFuncs b s) kv.1 kv.2 t ht
    have hre := ih (fun x hx => h x (List.mem_cons_of_mem _ hx))
    simp [guess_type_by_value, hrc, hre, ht]

/-- Claim C8 counterexample: the record holding one list value refutes the
claim as stated.  The list matches none of the rules null, bool, int, float,
datetime, time, date (each test is either cleanly false or - for the time
rule - an `AttributeError`, not a match) and it has no text-casing
capability, yet `guess_type_by_value` does not fail: the time rule's
attribute failure makes `type_test` report the raw runtime-type label
"list" for the field. -/
theorem guess_value_counterexample :
    is_null (.vlist 1) true = false ∧
    is_bool (.vlist 1) = false ∧
    is_int (.vlist 1) false = false ∧
    is_numeric (.vlist 1) false = false ∧
    is_datetime (.vlist 1) = .ok false ∧
    is_time (.vlist 1) = .error (.attributeError "isoformat") ∧
    is_date (.vlist 1) = .ok false ∧
    hasLower (.vlist 1) = false ∧
    guess_type_by_value [("field", .vlist 1)] true false =
      .ok [("field", "list")] :=
  ⟨rfl, rfl, rfl, rfl, rfl, rfl, rfl, rfl, rfl⟩

/-- Claim C8 (amended): when some value of the record makes every rule test
(including the text catch-all) return a clean false, the whole call fails
with the InvalidInput error; and a record whose every value reaches a clean
first match is classified field by field, in input order, by the first
matching rule of the chain null, bool, int, float, datetime, time, date,
text.  A value whose tests neither match nor all fail cleanly (an
attribute-access failure, as for the list above) is instead reported with
its raw runtime-type label. -/
theorem guess_value_spec :
    (∀ (record : List (String × Value)) (k : String) (v : Value),
      (k, v) ∈ record → failsAllTests true false v = true →
      exceptOk (guess_type_by_value record true false) = false) ∧
    (∀ record : List (String × Value),
      (∀ kv ∈ record,
        (cleanFirstLabel (valueGuessFuncs true false) kv.2).isSome = true) →
      guess_type_by_value record true false =
        .ok (record.map (fun kv =>
          (kv.1,
            (cleanFirstLabel (valueGuessFuncs true false) kv.2).getD
              "text")))) :=
  ⟨fun record k v hmem hfail => guess_error_of_mem record true false k v hmem
      hfail,
   fun record h => guess_ok_of_clean record true false h⟩

/-- Claim C8 witness: a midnight time value fails every test cleanly and
aborts the call, while the seven-field record of cleanly matching values is
classified in order. -/
theorem guess_value_spec_witness :
    exceptOk (guess_type_by_value [("t", .vtime 0 0 0)] true false) = false ∧
    guess_type_by_value goodRecord true false =
      .ok (goodRecord.map (fun kv =>
        (kv.1,
          (cleanFirstLabel (valueGuessFuncs true false) kv.2).getD "text"))) :=
  ⟨guess_value_spec.1 [("t", .vtime 0 0 0)] "t" (.vtime 0 0 0)
      (List.mem_singleton.mpr rfl) rfl,
   guess_value_spec.2 goodRecord (by decide)⟩
